import Mathlib

/-!
Verification of the quaternion rotation math, flight planner, ship order
state machine and fleet-command layer of the space simulation repository.

Conventions of the embedding:
* numpy float arithmetic is modelled by exact real (or rational) arithmetic;
  the handful of places where IEEE non-numeric results (NaN) matter are
  modelled explicitly with `Option`.
* Python scalar division, which raises `ZeroDivisionError` on a zero
  divisor, is modelled in the `Except` monad.
* Code of the repository that is not shipped in the sources at hand
  (the universe engine: scheduler, object registry) is modelled from the
  spec and marked as such in its doc comment.
-/

namespace SpaceSim

/-- A 3-component vector of reals, one row of a numpy `(n, 3)` array. -/
structure Vec3 where
  x : ℝ
  y : ℝ
  z : ℝ

/-- A quaternion `(w, x, y, z)` as a numpy `(4,)` array of floats,
modelled over the reals. -/
structure Quat where
  w : ℝ
  x : ℝ
  y : ℝ
  z : ℝ

namespace Quaternion

noncomputable section

/-- Modelled from the spec: the module-level `EPSILON` constant of the
`logic` package (its defining module is not among the sources at hand);
the spec only requires it to be a small positive tolerance and quotes
`1e-6` as the tolerance used for plan checks. -/
def EPSILON : ℝ := 1 / 1000000

/-- Source `Quaternion.multi`: the Hamilton product, exactly as computed in the
source — `qw = wr*ws - dot(vr, vs)`, `qv = vr*ws + vs*wr + cross(vr, vs)`. -/
def multi (qr qs : Quat) : Quat :=
  ⟨qr.w * qs.w - (qr.x * qs.x + qr.y * qs.y + qr.z * qs.z),
   qr.x * qs.w + qs.x * qr.w + (qr.y * qs.z - qr.z * qs.y),
   qr.y * qs.w + qs.y * qr.w + (qr.z * qs.x - qr.x * qs.z),
   qr.z * qs.w + qs.z * qr.w + (qr.x * qs.y - qr.y * qs.x)⟩

/-- Source `Quaternion.inverse`: elementwise product with `(1, -1, -1, -1)`,
i.e. the conjugate. -/
def inverse (q : Quat) : Quat :=
  ⟨q.w * 1, q.x * (-1), q.y * (-1), q.z * (-1)⟩

/-- Source `Quaternion.from_vector`: lift a 3-vector to the pure quaternion
`(0, v)`. -/
def from_vector (v : Vec3) : Quat := ⟨0, v.x, v.y, v.z⟩

/-- Source `Quaternion.rotate_quaternion`: `q * p * inverse(q)`. -/
def rotate_quaternion (p q : Quat) : Quat := multi (multi q p) (inverse q)

/-- Source `Quaternion.rotate_vector`: lift `v`, rotate, drop the real part
(`[1:]` in the source). -/
def rotate_vector (v : Vec3) (q : Quat) : Vec3 :=
  let p := rotate_quaternion (from_vector v) q
  ⟨p.x, p.y, p.z⟩

/-- One row of `Quaternion.multiply_one_many` (single `qr`, row `p` of the
batch `qs`): `d = np.dot(vs, vr)`, `qw = wr*ws - d`,
`qv = vr*ws + vs*wr + np.cross(vr, vs)`, transcribed per component. -/
def multiply_one_many_row (qr p : Quat) : Quat :=
  ⟨qr.w * p.w - (p.x * qr.x + p.y * qr.y + p.z * qr.z),
   qr.x * p.w + p.x * qr.w + (qr.y * p.z - qr.z * p.y),
   qr.y * p.w + p.y * qr.w + (qr.z * p.x - qr.x * p.z),
   qr.z * p.w + p.z * qr.w + (qr.x * p.y - qr.y * p.x)⟩

/-- Source `Quaternion.multiply_one_many`: the batch as a list of rows. -/
def multiply_one_many (qr : Quat) (qs : List Quat) : List Quat :=
  qs.map (multiply_one_many_row qr)

/-- One row of `Quaternion.multiply_many_one` (row `p` of the batch `qr`,
single `qs`): `d = np.dot(vr, vs)`, `qw = wr*ws - d`,
`qv = vr*ws + vs*wr + np.cross(vr, vs)`, transcribed per component. -/
def multiply_many_one_row (p qs : Quat) : Quat :=
  ⟨p.w * qs.w - (p.x * qs.x + p.y * qs.y + p.z * qs.z),
   p.x * qs.w + qs.x * p.w + (p.y * qs.z - p.z * qs.y),
   p.y * qs.w + qs.y * p.w + (p.z * qs.x - p.x * qs.z),
   p.z * qs.w + qs.z * p.w + (p.x * qs.y - p.y * qs.x)⟩

/-- Source `Quaternion.multiply_many_one`: the batch as a list of rows. -/
def multiply_many_one (qr : List Quat) (qs : Quat) : List Quat :=
  qr.map (fun p => multiply_many_one_row p qs)

/-- Source `Quaternion.rotate_quaternions`: `multiply_one_many` then
`multiply_many_one` with the inverse. -/
def rotate_quaternions (p : List Quat) (q : Quat) : List Quat :=
  multiply_many_one (multiply_one_many q p) (inverse q)

/-- Source `Quaternion.rotate_vectors`: prepend a zero column (lift every row to a
pure quaternion), rotate the batch, drop the first column. -/
def rotate_vectors (vectors : List Vec3) (q : Quat) : List Vec3 :=
  (rotate_quaternions (vectors.map from_vector) q).map (fun p => ⟨p.x, p.y, p.z⟩)

/-- The Euclidean norm of a 3-vector (`np.linalg.norm`). -/
noncomputable def norm3 (v : Vec3) : ℝ := Real.sqrt (v.x ^ 2 + v.y ^ 2 + v.z ^ 2)

lemma batched_row_eq (q : Quat) (v : Vec3) :
    (⟨(multiply_many_one_row (multiply_one_many_row q (from_vector v)) (inverse q)).x,
      (multiply_many_one_row (multiply_one_many_row q (from_vector v)) (inverse q)).y,
      (multiply_many_one_row (multiply_one_many_row q (from_vector v)) (inverse q)).z⟩ : Vec3)
      = rotate_vector v q := by
  simp only [multiply_many_one_row, multiply_one_many_row, from_vector, inverse,
    rotate_vector, rotate_quaternion, multi, Vec3.mk.injEq]
  refine ⟨by ring, by ring, by ring⟩

/-- C6: the batched `rotate_vectors` path produces exactly the same results
as applying `rotate_vector` to each row individually. -/
theorem rotate_vectors_eq_map_rotate_vector (vectors : List Vec3) (q : Quat) :
    rotate_vectors vectors q = vectors.map (fun v => rotate_vector v q) := by
  induction vectors with
  | nil => rfl
  | cons v t ih =>
    simp only [rotate_vectors, rotate_quaternions, multiply_many_one,
      multiply_one_many, List.map_cons] at ih ⊢
    rw [batched_row_eq q v, ih]

lemma double_rotate (q : Quat) (v : Vec3) :
    rotate_vector (rotate_vector v q) (inverse q) =
      ⟨(q.w ^ 2 + q.x ^ 2 + q.y ^ 2 + q.z ^ 2) ^ 2 * v.x,
       (q.w ^ 2 + q.x ^ 2 + q.y ^ 2 + q.z ^ 2) ^ 2 * v.y,
       (q.w ^ 2 + q.x ^ 2 + q.y ^ 2 + q.z ^ 2) ^ 2 * v.z⟩ := by
  simp only [rotate_vector, rotate_quaternion, multi, inverse, from_vector, Vec3.mk.injEq]
  refine ⟨by ring, by ring, by ring⟩

lemma rotate_normSq (q : Quat) (v : Vec3) :
    (rotate_vector v q).x ^ 2 + (rotate_vector v q).y ^ 2 + (rotate_vector v q).z ^ 2 =
      (q.w ^ 2 + q.x ^ 2 + q.y ^ 2 + q.z ^ 2) ^ 2 * (v.x ^ 2 + v.y ^ 2 + v.z ^ 2) := by
  simp only [rotate_vector, rotate_quaternion, multi, inverse, from_vector]
  ring

/-- C7: for a unit quaternion, rotating and then rotating by the inverse
reproduces the vector exactly, and rotation preserves the Euclidean norm. -/
theorem rotate_vector_roundtrip_and_norm (q : Quat) (v : Vec3)
    (hq : q.w ^ 2 + q.x ^ 2 + q.y ^ 2 + q.z ^ 2 = 1) :
    rotate_vector (rotate_vector v q) (inverse q) = v ∧
      norm3 (rotate_vector v q) = norm3 v := by
  constructor
  · rw [double_rotate, hq]
    cases v
    simp
  · have h := rotate_normSq q v
    rw [hq] at h
    rw [norm3, norm3, h]
    norm_num

/-- C7 witness: the roundtrip and norm preservation at the concrete unit
quaternion `(0, 1, 0, 0)` and vector `(1, 2, 3)`. -/
theorem rotate_vector_roundtrip_and_norm_witness :
    ((0 : ℝ) ^ 2 + 1 ^ 2 + 0 ^ 2 + 0 ^ 2 = 1) ∧
      (rotate_vector (rotate_vector ⟨1, 2, 3⟩ ⟨0, 1, 0, 0⟩) (inverse ⟨0, 1, 0, 0⟩) = ⟨1, 2, 3⟩ ∧
        norm3 (rotate_vector ⟨1, 2, 3⟩ ⟨0, 1, 0, 0⟩) = norm3 ⟨1, 2, 3⟩) :=
  ⟨by norm_num,
   rotate_vector_roundtrip_and_norm ⟨0, 1, 0, 0⟩ ⟨1, 2, 3⟩ (by norm_num)⟩

/-- Two-argument arctangent, as `math.atan2(y, x)`. In the source it only
feeds the value `t` whose product `v_ = v * t` is computed and then never
used by `Quaternion.ln`. -/
def atan2 (y x : ℝ) : ℝ :=
  if 0 < x then Real.arctan (y / x)
  else if x < 0 then
    (if 0 ≤ y then Real.arctan (y / x) + Real.pi else Real.arctan (y / x) - Real.pi)
  else (if 0 < y then Real.pi / 2 else if y < 0 then -(Real.pi / 2) else 0)

/-- Source `Quaternion.ln`, transcribed exactly: `r` is the magnitude of the
imaginary part, `t = atan2(r, w) / r` guarded by `EPSILON`,
`w_ = log((q*q).sum()) * 0.5`, `v_ = v * t` — and the returned array is
`[w_, *v]`, i.e. the original imaginary part `v`, not the computed `v_`
(which is left unused). -/
def ln (q : Quat) : Quat :=
  let r := Real.sqrt (q.x ^ 2 + q.y ^ 2 + q.z ^ 2)
  let t := if r > EPSILON then atan2 r q.w / r else 0
  let w2 := Real.log (q.w ^ 2 + q.x ^ 2 + q.y ^ 2 + q.z ^ 2) * 0.5
  let _v2 : Vec3 := ⟨q.x * t, q.y * t, q.z * t⟩
  ⟨w2, q.x, q.y, q.z⟩

/-- Source `Quaternion.exp`, transcribed exactly (`s` guarded by `EPSILON`). -/
def exp (q : Quat) : Quat :=
  let r := Real.sqrt (q.x ^ 2 + q.y ^ 2 + q.z ^ 2)
  let et := Real.exp q.w
  let s := if r > EPSILON then et * Real.sin r / r else 0
  ⟨et * Real.cos r, q.x * s, q.y * s, q.z * s⟩

/-- Elementwise scaling of a quaternion array by a scalar
(the numpy product `cls.ln(q) * n`). -/
def scaleQ (q : Quat) (n : ℝ) : Quat := ⟨q.w * n, q.x * n, q.y * n, q.z * n⟩

/-- Source `Quaternion.pow`: `exp(ln(q) * n)`. -/
def pow (q : Quat) (n : ℝ) : Quat := exp (scaleQ (ln q) n)

lemma ln_unit_x : ln ⟨0, 1, 0, 0⟩ = ⟨0, 1, 0, 0⟩ := by
  simp only [ln, EPSILON]
  norm_num [Real.log_one]

lemma exp_unit_x : exp ⟨0, 1, 0, 0⟩ = ⟨Real.cos 1, Real.sin 1, 0, 0⟩ := by
  simp only [exp, EPSILON]
  norm_num [Real.exp_zero]

/-- C2: evidence for the code bug in `Quaternion.ln` (it returns the raw
imaginary part `v` instead of the computed `v_ = v * t`).  At the unit
quaternion `q = (0, 1, 0, 0)`, `power(q, 1)` evaluates to
`(cos 1, sin 1, 0, 0)`, which differs from `q` (so `power(q, 1) ≈ q`
fails), while `power(q, 0)` does equal the identity `(1, 0, 0, 0)`. -/
theorem pow_one_deviates_pow_zero_identity :
    pow ⟨0, 1, 0, 0⟩ 1 = ⟨Real.cos 1, Real.sin 1, 0, 0⟩ ∧
      pow ⟨0, 1, 0, 0⟩ 1 ≠ ⟨0, 1, 0, 0⟩ ∧
      pow ⟨0, 1, 0, 0⟩ 0 = ⟨1, 0, 0, 0⟩ := by
  have hscale : scaleQ ⟨0, 1, 0, 0⟩ 1 = ⟨0, 1, 0, 0⟩ := by
    simp [scaleQ]
  have h1 : pow ⟨0, 1, 0, 0⟩ 1 = ⟨Real.cos 1, Real.sin 1, 0, 0⟩ := by
    rw [pow, ln_unit_x, hscale, exp_unit_x]
  have hcos : 0 < Real.cos 1 := by
    apply Real.cos_pos_of_mem_Ioo
    constructor
    · have := Real.pi_gt_three
      linarith
    · have := Real.pi_gt_three
      linarith
  refine ⟨h1, ?_, ?_⟩
  · rw [h1]
    intro h
    have hw := congrArg Quat.w h
    simp only at hw
    exact absurd hw (ne_of_gt hcos)
  · have hz : scaleQ (ln ⟨0, 1, 0, 0⟩) 0 = ⟨0, 0, 0, 0⟩ := by
      simp [scaleQ]
    rw [pow, hz, exp]
    simp only [EPSILON]
    norm_num [Real.exp_zero]

/-- The Euclidean norm of a quaternion as a flat numpy 4-array
(`np.linalg.norm(q)`). -/
def quatNorm (q : Quat) : ℝ := Real.sqrt (q.w ^ 2 + q.x ^ 2 + q.y ^ 2 + q.z ^ 2)

/-- Componentwise numpy float division. numpy does not raise on a zero
divisor: it emits a RuntimeWarning and produces a non-numeric IEEE result
(NaN for `0/0`, an infinity otherwise), modelled here as `none`. -/
def npDiv (x y : ℝ) : Option ℝ := if y = 0 then none else some (x / y)

/-- A quaternion whose components may be non-numeric (NaN or an infinity),
as produced by numpy division by zero. -/
structure NQuat where
  w : Option ℝ
  x : Option ℝ
  y : Option ℝ
  z : Option ℝ

/-- Source `Quaternion.normalize` under numpy semantics: `q / np.linalg.norm(q)`,
a total function; a zero norm yields non-numeric components, not an
exception. -/
def normalize (q : Quat) : NQuat :=
  ⟨npDiv q.w (quatNorm q), npDiv q.x (quatNorm q),
   npDiv q.y (quatNorm q), npDiv q.z (quatNorm q)⟩

/-- The error kind named by the spec for zero-norm normalization. -/
inductive MathErr
  | divisionByZero
deriving DecidableEq

/-- Modelled from the spec: the behaviour section 4.1 and section 7 claim
for `normalize` — fail with a DivisionByZero kind on zero norm, otherwise
divide by the norm. Stated for comparison with the code path `normalize`. -/
def normalize_spec (q : Quat) : Except MathErr Quat :=
  if quatNorm q = 0 then .error .divisionByZero
  else .ok ⟨q.w / quatNorm q, q.x / quatNorm q, q.y / quatNorm q, q.z / quatNorm q⟩

lemma quatNorm_zero : quatNorm ⟨0, 0, 0, 0⟩ = 0 := by
  norm_num [quatNorm]

/-- C4 counterexample: at the zero quaternion the code's `normalize`
returns a value — all components the non-numeric result of a silent numpy
division by zero — whereas the claim requires a propagated
DivisionByZero-kind failure (the behaviour `normalize_spec` describes). -/
theorem normalize_zero_silent_counterexample :
    normalize ⟨0, 0, 0, 0⟩ = ⟨none, none, none, none⟩ ∧
      normalize_spec ⟨0, 0, 0, 0⟩ = .error .divisionByZero := by
  constructor
  · simp [normalize, npDiv, quatNorm_zero]
  · simp [normalize_spec, quatNorm_zero]

/-- C4 amended: `normalize` applied to any zero-norm quaternion does not
fail; it silently returns a quaternion all of whose components are
non-numeric (NaN), since numpy division by zero does not raise. -/
theorem normalize_zero_norm_returns_nan (q : Quat) (h : quatNorm q = 0) :
    normalize q = ⟨none, none, none, none⟩ := by
  simp [normalize, npDiv, h]

/-- C4 witness: the amended statement evaluated at the zero quaternion. -/
theorem normalize_zero_norm_returns_nan_witness :
    quatNorm ⟨0, 0, 0, 0⟩ = 0 ∧ normalize ⟨0, 0, 0, 0⟩ = ⟨none, none, none, none⟩ :=
  ⟨by norm_num [quatNorm], normalize_zero_norm_returns_nan ⟨0, 0, 0, 0⟩ (by norm_num [quatNorm])⟩

end

end Quaternion

namespace Ship

/-- Modelled from the spec: the module-level `EPSILON` tolerance of the
`logic` package (defining module not among the sources at hand), on the
rational side of the embedding; the spec quotes `1e-6` as the tolerance
for the flight-plan postcondition. -/
def EPSILONQ : ℚ := 1 / 1000000

/-- Errors a Python scalar computation can raise in the planner:
`ZeroDivisionError` and a failing `assert`. -/
inductive PyErr
  | divisionByZero
  | assertionError
deriving DecidableEq

/-- Python scalar division: raises `ZeroDivisionError` on a zero divisor,
otherwise exact division (floats idealized as rationals). -/
def pyDiv (x y : ℚ) : Except PyErr ℚ :=
  if y = 0 then .error .divisionByZero else .ok (x / y)

/-- The `FlightPlan` namedtuple `(cutoff, break_burn, arrival, total)`,
all simulation-clock values. -/
structure FlightPlan where
  cutoff : ℚ
  break_burn : ℚ
  arrival : ℚ
  total : ℚ
deriving DecidableEq

/-- The burn-distance expression of `Ship._simple_flight_plan`, computed
the same way at both of its occurrences (before the speed-reduction loop
and inside it): `burn_time * (burn_time + 1) // 2 * thrust`, where `//`
is Python float floor-division. -/
def burn_distance (burn_time thrust : ℚ) : ℚ :=
  (⌊burn_time * (burn_time + 1) / 2⌋ : ℚ) * thrust

/-- The speed-reduction `while` loop of `Ship._simple_flight_plan`:
while `burn_distance >= travel_dist / 2`, multiply the cruise speed by
`0.95` and recompute `burn_time` and `burn_distance`. The loop has no
structural termination measure, so it is modelled with explicit fuel;
on exit it yields the final `(cruise_speed, burn_time, burn_distance)`. -/
def flightLoop (travel_dist thrust : ℚ) : ℕ → ℚ → Option (ℚ × ℚ × ℚ)
  | 0, _ => none
  | fuel + 1, cruise_speed =>
    let burn_time := cruise_speed / thrust
    let bd := burn_distance burn_time thrust
    if bd ≥ travel_dist / 2 then
      flightLoop travel_dist thrust fuel (cruise_speed * 0.95)
    else
      some (cruise_speed, burn_time, bd)

/-- Source `Ship._simple_flight_plan`. The first division `cruise_speed / thrust`
is Python scalar division and raises on `thrust = 0` before the loop; the
final `assert arrival / (tick_offset + total) - 1 < EPSILON` is modelled
as a checked division plus a guard. `none` means the loop ran out of
fuel. -/
def simple_flight_plan (travel_dist cruise_speed thrust tick_offset : ℚ)
    (fuel : ℕ) : Option (Except PyErr FlightPlan) :=
  match pyDiv cruise_speed thrust with
  | .error e => some (.error e)
  | .ok _ =>
    match flightLoop travel_dist thrust fuel cruise_speed with
    | none => none
    | some (cs, burn_time, bd) =>
      let cruise_dist := travel_dist - bd * 2
      match pyDiv cruise_dist cs with
      | .error e => some (.error e)
      | .ok cruise_time =>
        let total := burn_time * 2 + cruise_time
        let cutoff := tick_offset + burn_time
        let bb := cutoff + cruise_time
        let arrival := bb + burn_time
        match pyDiv arrival (tick_offset + total) with
        | .error e => some (.error e)
        | .ok checkVal =>
          if checkVal - 1 < EPSILONQ then some (.ok ⟨cutoff, bb, arrival, total⟩)
          else some (.error .assertionError)

/-- C3 counterexample: for `cruise_speed = 3`, `thrust = 2` the burn time
is `t = 3/2` and the planner's floor-divided burn distance is `2`, not the
exact arithmetic-series value `t*(t+1)/2 * thrust = 15/4` the claim
states. -/
theorem burn_distance_not_exact_counterexample :
    burn_distance ((3 : ℚ) / 2) 2 ≠ (3 : ℚ) / 2 * ((3 : ℚ) / 2 + 1) / 2 * 2 := by
  have h : ⌊(3 : ℚ) / 2 * ((3 : ℚ) / 2 + 1) / 2⌋ = 1 := by
    rw [Int.floor_eq_iff]
    norm_num
  rw [burn_distance, h]
  norm_num

/-- C3 amended: the burn-distance expression equals the exact discrete
arithmetic-series value `t*(t+1)/2 * thrust` whenever the burn time `t` is
a whole number of ticks (Python `//` then loses nothing because
`t*(t+1)` is even); for fractional burn times it is the floor
`(t*(t+1)) // 2` times the thrust instead. -/
theorem burn_distance_exact_on_integer_burn_time (t thrust : ℚ) (n : ℕ)
    (h : t = n) : burn_distance t thrust = t * (t + 1) / 2 * thrust := by
  subst h
  obtain ⟨m, hm⟩ := Nat.even_mul_succ_self n
  have h2 : (n : ℚ) * ((n : ℚ) + 1) / 2 = (m : ℚ) := by
    have : ((n * (n + 1) : ℕ) : ℚ) = ((m + m : ℕ) : ℚ) := by rw [hm]
    push_cast at this
    linarith
  rw [burn_distance, h2, Int.floor_natCast]
  push_cast
  ring

/-- C3 witness: at `burn_time = 10`, `thrust = 1` the planner burn
distance is the exact series value `10 * 11 / 2 = 55`. -/
theorem burn_distance_exact_on_integer_burn_time_witness :
    ((10 : ℚ) = (10 : ℕ)) ∧ burn_distance 10 1 = 10 * (10 + 1) / 2 * 1 :=
  ⟨by norm_num, burn_distance_exact_on_integer_burn_time 10 1 10 (by norm_num)⟩

lemma flightLoop_result_lt (td th : ℚ) :
    ∀ (fuel : ℕ) (cs : ℚ) (r : ℚ × ℚ × ℚ),
      flightLoop td th fuel cs = some r → r.2.2 < td / 2 := by
  intro fuel
  induction fuel with
  | zero => intro cs r h; simp [flightLoop] at h
  | succ n ih =>
    intro cs r h
    simp only [flightLoop] at h
    split at h
    · exact ih _ _ h
    · next hcond =>
      obtain rfl : (cs, cs / th, burn_distance (cs / th) th) = r := by
        exact Option.some.inj h
      exact lt_of_not_ge hcond

lemma flightLoop_exits (td th : ℚ) (htd : 0 < td) (hth : 0 < th) :
    ∀ (n : ℕ) (cs : ℚ), 0 < cs → cs * (0.95 : ℚ) ^ n < th →
      (flightLoop td th (n + 1) cs).isSome := by
  intro n
  induction n with
  | zero =>
    intro cs hcs hlt
    have hcs' : cs < th := by
      simpa using hlt
    have hb0 : 0 < cs / th := div_pos hcs hth
    have hb1 : cs / th < 1 := (div_lt_one hth).mpr hcs'
    have hfloor : ⌊cs / th * (cs / th + 1) / 2⌋ = 0 := by
      rw [Int.floor_eq_zero_iff]
      constructor
      · positivity
      · nlinarith
    have hbd : burn_distance (cs / th) th = 0 := by
      rw [burn_distance, hfloor]
      norm_num
    simp only [flightLoop, hbd]
    rw [if_neg (by linarith)]
    rfl
  | succ n ih =>
    intro cs hcs hlt
    simp only [flightLoop]
    split
    · apply ih (cs * 0.95)
      · positivity
      · calc cs * 0.95 * (0.95 : ℚ) ^ n = cs * (0.95 : ℚ) ^ (n + 1) := by ring
          _ < th := hlt
    · rfl

/-- C8: for any positive travel distance, cruise speed and thrust, the
speed-reduction loop of `Ship._simple_flight_plan` terminates (some finite
fuel suffices), and the burn distance it settles on satisfies
`burn_distance * 2 < travel_distance`. -/
theorem flight_loop_terminates_and_feasible (td cs th : ℚ)
    (htd : 0 < td) (hcs : 0 < cs) (hth : 0 < th) :
    ∃ (fuel : ℕ) (r : ℚ × ℚ × ℚ),
      flightLoop td th fuel cs = some r ∧ r.2.2 * 2 < td := by
  obtain ⟨n, hn⟩ := exists_pow_lt_of_lt_one (div_pos hth hcs) (by norm_num : (0.95 : ℚ) < 1)
  have h2 : cs * (0.95 : ℚ) ^ n < th := by
    rw [lt_div_iff₀ hcs] at hn
    linarith [hn]
  have hs := flightLoop_exits td th htd hth n cs hcs h2
  obtain ⟨r, hr⟩ := Option.isSome_iff_exists.mp hs
  refine ⟨n + 1, r, hr, ?_⟩
  have := flightLoop_result_lt td th (n + 1) cs r hr
  linarith

/-- C8 witness: the loop terminates and returns a feasible burn distance
at the spec's concrete instance `travel_distance = 1`,
`cruise_speed = 100`, `thrust = 1`. -/
theorem flight_loop_terminates_and_feasible_witness :
    ∃ (fuel : ℕ) (r : ℚ × ℚ × ℚ),
      flightLoop 1 1 fuel 100 = some r ∧ r.2.2 * 2 < 1 :=
  flight_loop_terminates_and_feasible 1 100 1 (by norm_num) (by norm_num) (by norm_num)

/-- A 3-component rational vector: one row of the simulation's kinematic
float arrays (position, velocity, acceleration), floats idealized as
rationals. -/
structure Vec3Q where
  x : ℚ
  y : ℚ
  z : ℚ
deriving DecidableEq

instance : Add Vec3Q := ⟨fun a b => ⟨a.x + b.x, a.y + b.y, a.z + b.z⟩⟩

instance : Sub Vec3Q := ⟨fun a b => ⟨a.x - b.x, a.y - b.y, a.z - b.z⟩⟩

instance : Neg Vec3Q := ⟨fun a => ⟨-a.x, -a.y, -a.z⟩⟩

/-- Elementwise numpy scaling of a vector by a scalar. -/
def scale (c : ℚ) (v : Vec3Q) : Vec3Q := ⟨c * v.x, c * v.y, c * v.z⟩

/-- Partial model of `np.linalg.norm` on a 3-vector: `Rat.sqrt` of the sum
of squares agrees with the Euclidean norm exactly whenever that norm is
rational, which holds for every vector the theorems below evaluate it on
(the float norm is also exact there); on other inputs `Rat.sqrt`
truncates, so no theorem below relies on them. -/
def norm3Q (v : Vec3Q) : ℚ := Rat.sqrt (v.x ^ 2 + v.y ^ 2 + v.z ^ 2)

lemma norm3Q_axis (d : ℚ) (hd : 0 ≤ d) : norm3Q ⟨d, 0, 0⟩ = d := by
  rw [norm3Q, show (d ^ 2 + 0 ^ 2 + 0 ^ 2 : ℚ) = d * d by ring, Rat.sqrt_eq,
    abs_of_nonneg hd]

/-- The deferred ship callbacks that `Ship.fly_to` and its chained event
callbacks can schedule; following the spec's design note, the capturing
closures are represented as data dispatched by the scheduler model. The
`autoCutoff` action is the undecorated lambda scheduled by
`engine_break_burn(auto_cutoff=True)`. -/
inductive EvAction
  | cruiseCutoff
  | breakBurn
  | flyEnd
  | autoCutoff
deriving DecidableEq

/-- A scheduled Event: order token (`0` = unconditional), absolute due
tick, and the callback it will run. The advisory label string is not
modelled. -/
structure SEvent where
  uid : ℕ
  due : ℚ
  action : EvAction
deriving DecidableEq

/-- The combined state the ship order machinery acts on: the scheduler
clock and queue and the one ship's kinematic entries (modelled from the
spec, sections 4.2 and 4.3 — the universe engine is not among the sources
at hand), together with the `Ship` attributes of the source
(`thrust`, `current_flight`, `current_order_uid`) and the static position
of the one navigation target the scenarios fly to. -/
structure Sim where
  tick : ℚ
  shipPos : Vec3Q
  shipVel : Vec3Q
  shipAcc : Vec3Q
  shipThrust : ℚ
  targetPos : Vec3Q
  currentFlight : Option FlightPlan
  currentOrderUid : Option ℕ
  events : List SEvent
deriving DecidableEq

/-- Insert an event into the queue ordered by `(due, insertion order)`:
after every queued event with due tick less than or equal to its own. -/
def insertEvent (e : SEvent) : List SEvent → List SEvent
  | [] => [e]
  | h :: t => if h.due ≤ e.due then h :: insertEvent e t else e :: h :: t

/-- Modelled from the spec: `Scheduler.schedule` / `universe.add_event`
(section 4.3) — insert an Event with an absolute due tick into the
time-ordered queue, FIFO among equal due ticks. -/
def add_event (uid : ℕ) (due : ℚ) (a : EvAction) (s : Sim) : Sim :=
  { s with events := insertEvent ⟨uid, due, a⟩ s.events }

/-- Source `Ship.check_obsolete_order`: `uid != self.current_order_uid` (a Python
int compared against `None` or an int; unequal to `None` always). -/
def check_obsolete_order (s : Sim) (uid : ℕ) : Bool :=
  some uid != s.currentOrderUid

/-- Source `Ship.engine_burn(vector, throttle)`: a zero-magnitude direction warns
and mutates nothing; otherwise acceleration becomes
`vector * (thrust * throttle / mag)`. -/
def engine_burn (vector : Vec3Q) (throttle : ℚ) (s : Sim) : Sim :=
  let mag := norm3Q vector
  if mag = 0 then s
  else { s with shipAcc := scale (s.shipThrust * throttle / mag) vector }

/-- Source `Ship.engine_cut_burn`: zero the acceleration entry. -/
def engine_cut_burn (s : Sim) : Sim := { s with shipAcc := ⟨0, 0, 0⟩ }

/-- Source `Ship.engine_break_burn(throttle, auto_cutoff)`: burn opposite the
current velocity; zero velocity warns and mutates nothing; with
`auto_cutoff` an unconditional (uid 0) cutoff event is scheduled at
`tick + mag / thrust`. -/
def engine_break_burn (throttle : ℚ) (auto_cutoff : Bool) (s : Sim) : Sim :=
  let v := s.shipVel
  let mag := norm3Q v
  if mag = 0 then s
  else
    let s1 := engine_burn (-v) throttle s
    if auto_cutoff then add_event 0 (s1.tick + mag / s1.shipThrust) .autoCutoff s1
    else s1

/-- Fire one event callback. The decorated callbacks (`fly_cruise_cutoff`,
`fly_break_burn`, `fly_end`) first run the `event_callback` guard: a
nonzero uid that `check_obsolete_order` rejects makes the callback a
silent no-op; uid `0` forces the callback. `none` models an exception
(accessing `current_flight.break_burn` with no stored flight). -/
def handleEvent (e : SEvent) (s : Sim) : Option Sim :=
  match e.action with
  | .autoCutoff => some (engine_cut_burn s)
  | .cruiseCutoff =>
    if e.uid ≠ 0 ∧ check_obsolete_order s e.uid then some s
    else
      let s1 := engine_cut_burn s
      match s1.currentFlight with
      | none => none
      | some fp => some (add_event e.uid fp.break_burn .breakBurn s1)
  | .breakBurn =>
    if e.uid ≠ 0 ∧ check_obsolete_order s e.uid then some s
    else
      let s1 := engine_break_burn 1 false s
      match s1.currentFlight with
      | none => none
      | some fp => some (add_event e.uid fp.arrival .flyEnd s1)
  | .flyEnd =>
    if e.uid ≠ 0 ∧ check_obsolete_order s e.uid then some s
    else
      let s1 := engine_cut_burn s
      some { s1 with currentFlight := none }

/-- Modelled from the spec: the event-firing phase of `Scheduler.advance`
(section 4.3) — pop and fire every event due at or before the current
tick, in queue order; events scheduled by callbacks participate. Fuel
bounds the number of firings (`none` = fuel exhausted). -/
def fireDue : ℕ → Sim → Option Sim
  | 0, _ => none
  | fuel + 1, s =>
    match s.events with
    | [] => some s
    | e :: rest =>
      if e.due ≤ s.tick then
        match handleEvent e { s with events := rest } with
        | none => none
        | some s1 => fireDue fuel s1
      else some s

/-- Modelled from the spec: `Scheduler.advance(delta)` (section 4.3) — one
continuous first-order integration step (`velocity += acceleration * dt`,
`position += velocity * dt`), advance the clock, then fire due events. -/
def advance (delta : ℚ) (fuel : ℕ) (s : Sim) : Option Sim :=
  let vel := s.shipVel + scale delta s.shipAcc
  let pos := s.shipPos + scale delta vel
  fireDue fuel { s with shipVel := vel, shipPos := pos, tick := s.tick + delta }

/-- Source `Ship.fly_to(oid, cruise_speed)`: compute the travel vector to the
target's position, plan the flight from its norm, start the cruise burn,
schedule the cruise-cutoff event — with the literal unconditional token
`0`, not a freshly minted order uid — and store the plan.
`none` models a propagated planner exception (no order issued). The
cockpit camera call of the source has no effect on any state modelled
here. -/
def fly_to (cruise_speed : ℚ) (fuel : ℕ) (s : Sim) : Option Sim :=
  let travel_vector := s.targetPos - s.shipPos
  let travel_dist := norm3Q travel_vector
  match simple_flight_plan travel_dist cruise_speed s.shipThrust s.tick fuel with
  | some (.ok plan) =>
    let s1 := engine_burn travel_vector 1 s
    let s2 := add_event 0 plan.cutoff .cruiseCutoff s1
    some { s2 with currentFlight := some plan }
  | _ => none

lemma simple_flight_plan_zero_thrust (td cs toff : ℚ) (fuel : ℕ) :
    simple_flight_plan td cs 0 toff fuel = some (.error .divisionByZero) := by
  simp [simple_flight_plan, pyDiv]

/-- C5 amended: a zero thrust is rejected by the first Python division
`burn_time = cruise_speed / thrust`, before the speed-reduction loop, as a
`ZeroDivisionError` that propagates out of `fly_to`, so no order is
issued (no event scheduled, no state mutated); a NEGATIVE thrust, by
contrast, is not rejected (see the counterexample theorem). -/
theorem zero_thrust_rejected_before_loop :
    (∀ (td cs toff : ℚ) (fuel : ℕ),
      simple_flight_plan td cs 0 toff fuel = some (.error .divisionByZero)) ∧
    (∀ (s : Sim) (cs : ℚ) (fuel : ℕ), s.shipThrust = 0 →
      fly_to cs fuel s = none) := by
  refine ⟨fun td cs toff fuel => simple_flight_plan_zero_thrust td cs toff fuel, ?_⟩
  intro s cs fuel h
  simp [fly_to, h, simple_flight_plan_zero_thrust]

/-- C5 witness: the zero-thrust rejection evaluated at concrete planner
arguments and on a concrete ship state with zero thrust (a `Port`). -/
theorem zero_thrust_rejected_before_loop_witness :
    simple_flight_plan 7 3 0 2 5 = some (.error .divisionByZero) ∧
      fly_to 3 5 ⟨0, ⟨0, 0, 0⟩, ⟨0, 0, 0⟩, ⟨0, 0, 0⟩, 0, ⟨5, 0, 0⟩, none, none, []⟩ = none :=
  ⟨zero_thrust_rejected_before_loop.1 7 3 2 5,
   zero_thrust_rejected_before_loop.2 ⟨0, ⟨0, 0, 0⟩, ⟨0, 0, 0⟩, ⟨0, 0, 0⟩, 0, ⟨5, 0, 0⟩, none, none, []⟩ 3 5 rfl⟩

/-- C5 counterexample: a NEGATIVE thrust (`-1`) is not rejected — the
planner raises nothing, enters and immediately leaves the loop, and
returns a plan (so an order would be issued), contradicting the claim for
every non-positive thrust. -/
theorem negative_thrust_accepted_counterexample :
    simple_flight_plan 1000 10 (-1) 0 1 = some (.ok ⟨-10, 99, 89, 89⟩) := by
  have hf : ⌊((10 : ℚ) / (-1) * ((10 : ℚ) / (-1) + 1)) / 2⌋ = 45 := by
    rw [Int.floor_eq_iff]
    norm_num
  norm_num [simple_flight_plan, pyDiv, flightLoop, burn_distance, EPSILONQ, hf]

@[simp] lemma add_mk (a b c d e f : ℚ) :
    (⟨a, b, c⟩ : Vec3Q) + ⟨d, e, f⟩ = ⟨a + d, b + e, c + f⟩ := rfl

@[simp] lemma sub_mk (a b c d e f : ℚ) :
    (⟨a, b, c⟩ : Vec3Q) - ⟨d, e, f⟩ = ⟨a - d, b - e, c - f⟩ := rfl

@[simp] lemma neg_mk (a b c : ℚ) : -(⟨a, b, c⟩ : Vec3Q) = ⟨-a, -b, -c⟩ := rfl

/-- C1 scenario start: a default `Ship` (thrust 1) at rest at the origin,
a fixed target at distance 10000 along the x-axis, a fresh scheduler. -/
def c1Start : Sim :=
  ⟨0, ⟨0, 0, 0⟩, ⟨0, 0, 0⟩, ⟨0, 0, 0⟩, 1, ⟨10000, 0, 0⟩, none, none, []⟩

/-- C1 scenario: a first fly order (cruise speed 10, so cutoff at tick 10)
at tick 0, advance to tick 2, a second fly order (cruise speed 12, so
cutoff at tick 14) while the first is in flight, then advance to tick 10
where the first order's cutoff event comes due. -/
def c1Run : Option Sim :=
  (((fly_to 10 1 c1Start).bind (advance 2 9)).bind (fly_to 12 1)).bind (advance 8 9)

lemma fly_to_ok (cs : ℚ) (fuel : ℕ) (s : Sim) (plan : FlightPlan)
    (h : simple_flight_plan (norm3Q (s.targetPos - s.shipPos)) cs s.shipThrust s.tick fuel
      = some (.ok plan)) :
    fly_to cs fuel s =
      some { add_event 0 plan.cutoff .cruiseCutoff
               (engine_burn (s.targetPos - s.shipPos) 1 s) with
             currentFlight := some plan } := by
  simp only [fly_to]
  rw [h]

lemma c1_plan1 : simple_flight_plan 10000 10 1 0 1 = some (.ok ⟨10, 999, 1009, 1009⟩) := by
  have hf : ⌊((10 : ℚ) / 1 * ((10 : ℚ) / 1 + 1)) / 2⌋ = 55 := by
    rw [Int.floor_eq_iff]
    norm_num
  norm_num [simple_flight_plan, pyDiv, flightLoop, burn_distance, EPSILONQ, hf]

lemma c1_plan2 : simple_flight_plan 9996 12 1 2 1 = some (.ok ⟨14, 834, 846, 844⟩) := by
  have hf : ⌊((12 : ℚ) / 1 * ((12 : ℚ) / 1 + 1)) / 2⌋ = 78 := by
    rw [Int.floor_eq_iff]
    norm_num
  norm_num [simple_flight_plan, pyDiv, flightLoop, burn_distance, EPSILONQ, hf]

lemma c1_step1 : fly_to 10 1 c1Start =
    some ⟨0, ⟨0, 0, 0⟩, ⟨0, 0, 0⟩, ⟨1, 0, 0⟩, 1, ⟨10000, 0, 0⟩,
      some ⟨10, 999, 1009, 1009⟩, none, [⟨0, 10, .cruiseCutoff⟩]⟩ := by
  have h : simple_flight_plan (norm3Q (c1Start.targetPos - c1Start.shipPos)) 10
      c1Start.shipThrust c1Start.tick 1 = some (.ok ⟨10, 999, 1009, 1009⟩) := by
    have hsub : c1Start.targetPos - c1Start.shipPos = (⟨10000, 0, 0⟩ : Vec3Q) := by
      norm_num [c1Start]
    rw [hsub, norm3Q_axis 10000 (by norm_num)]
    exact c1_plan1
  rw [fly_to_ok 10 1 c1Start _ h]
  norm_num [c1Start, engine_burn, add_event, insertEvent, scale, norm3Q_axis]

lemma c1_step2 : advance 2 9
    ⟨0, ⟨0, 0, 0⟩, ⟨0, 0, 0⟩, ⟨1, 0, 0⟩, 1, ⟨10000, 0, 0⟩,
      some ⟨10, 999, 1009, 1009⟩, none, [⟨0, 10, .cruiseCutoff⟩]⟩ =
    some ⟨2, ⟨4, 0, 0⟩, ⟨2, 0, 0⟩, ⟨1, 0, 0⟩, 1, ⟨10000, 0, 0⟩,
      some ⟨10, 999, 1009, 1009⟩, none, [⟨0, 10, .cruiseCutoff⟩]⟩ := by
  norm_num [advance, fireDue, scale]

lemma c1_step3 : fly_to 12 1
    ⟨2, ⟨4, 0, 0⟩, ⟨2, 0, 0⟩, ⟨1, 0, 0⟩, 1, ⟨10000, 0, 0⟩,
      some ⟨10, 999, 1009, 1009⟩, none, [⟨0, 10, .cruiseCutoff⟩]⟩ =
    some ⟨2, ⟨4, 0, 0⟩, ⟨2, 0, 0⟩, ⟨1, 0, 0⟩, 1, ⟨10000, 0, 0⟩,
      some ⟨14, 834, 846, 844⟩, none,
      [⟨0, 10, .cruiseCutoff⟩, ⟨0, 14, .cruiseCutoff⟩]⟩ := by
  set s2 : Sim := ⟨2, ⟨4, 0, 0⟩, ⟨2, 0, 0⟩, ⟨1, 0, 0⟩, 1, ⟨10000, 0, 0⟩,
    some ⟨10, 999, 1009, 1009⟩, none, [⟨0, 10, .cruiseCutoff⟩]⟩ with hs2
  have h : simple_flight_plan (norm3Q (s2.targetPos - s2.shipPos)) 12
      s2.shipThrust s2.tick 1 = some (.ok ⟨14, 834, 846, 844⟩) := by
    have hsub : s2.targetPos - s2.shipPos = (⟨9996, 0, 0⟩ : Vec3Q) := by
      norm_num [hs2]
    rw [hsub, norm3Q_axis 9996 (by norm_num)]
    exact c1_plan2
  rw [fly_to_ok 12 1 s2 _ h]
  norm_num [hs2, engine_burn, add_event, insertEvent, scale, norm3Q_axis]

lemma c1_step4 : advance 8 9
    ⟨2, ⟨4, 0, 0⟩, ⟨2, 0, 0⟩, ⟨1, 0, 0⟩, 1, ⟨10000, 0, 0⟩,
      some ⟨14, 834, 846, 844⟩, none,
      [⟨0, 10, .cruiseCutoff⟩, ⟨0, 14, .cruiseCutoff⟩]⟩ =
    some ⟨10, ⟨84, 0, 0⟩, ⟨10, 0, 0⟩, ⟨0, 0, 0⟩, 1, ⟨10000, 0, 0⟩,
      some ⟨14, 834, 846, 844⟩, none,
      [⟨0, 14, .cruiseCutoff⟩, ⟨0, 834, .breakBurn⟩]⟩ := by
  norm_num [advance, fireDue, scale, handleEvent, engine_cut_burn,
    check_obsolete_order, add_event, insertEvent]

/-- C1: evidence for the code bug. `fly_to` schedules every cruise-cutoff
event with the literal unconditional token `0` and never assigns
`current_order_uid`, so the first order's pending cutoff event is NOT a
silent no-op when a second order is in flight: at tick 10 it fires with
force, zeroes the acceleration in the middle of the second order's cruise
burn (the authoritative plan's cutoff is tick 14 > 10), and re-schedules
the chained break-burn off the SECOND plan's timestamps — no token was
ever minted (`currentOrderUid` is still `none`, every queued event still
carries uid 0). -/
theorem stale_cutoff_event_fires_with_effect :
    c1Run = some ⟨10, ⟨84, 0, 0⟩, ⟨10, 0, 0⟩, ⟨0, 0, 0⟩, 1, ⟨10000, 0, 0⟩,
      some ⟨14, 834, 846, 844⟩, none,
      [⟨0, 14, .cruiseCutoff⟩, ⟨0, 834, .breakBurn⟩]⟩ ∧
      (10 : ℚ) < 14 := by
  refine ⟨?_, by norm_num⟩
  rw [c1Run, c1_step1, Option.some_bind, c1_step2, Option.some_bind, c1_step3,
    Option.some_bind, c1_step4]

end Ship

namespace Admiral

open Ship (Vec3Q)

/-- The universe state the fleet-command layer touches: the registry's
per-object acceleration and velocity arrays, indexed by object id
(modelled from the spec, section 4.2 — the registry itself is not among
the sources at hand). An id is valid iff it indexes the arrays. -/
structure PWorld where
  accels : List Vec3Q
  vels : List Vec3Q
deriving DecidableEq

/-- The `Admiral`/`Player` state relevant to ordering: fleet id, the
flagship's object id (`my_ship`), and the roster `fleet_oids`. -/
structure Player where
  fid : ℕ
  myShipOid : ℕ
  fleetOids : List ℕ
deriving DecidableEq

/-- What `Player.order_ship` did: reported the `not in my fleet` feedback
(after printing the fleet — both outputs are advisory and not modelled
further), or invoked the named command on the target ship. -/
inductive OrderOutcome
  | feedback
  | invoked
deriving DecidableEq

/-- Source `Player.order_ship(command_name, oid, *args)`. The source first looks
the target up in `universe.ds_objects` (an unknown id propagates as a
lookup failure: `none`), then validates `oid in self.fleet_oids`; outside
the fleet it reports feedback and returns without touching anything;
inside the fleet it invokes the looked-up ship command. The command bound
to `command_name` together with its arguments is abstracted as an
arbitrary state transformer `cmdEffect`, so the no-mutation theorems hold
for every possible command. -/
def order_ship (cmdEffect : PWorld → PWorld) (p : Player) (oid : ℕ) (w : PWorld) :
    Option (PWorld × OrderOutcome) :=
  if oid < w.accels.length then
    if oid ∈ p.fleetOids then some (cmdEffect w, .invoked)
    else some (w, .feedback)
  else none

/-- Modelled from the spec: `ObjectRegistry.add_object` (section 4.2) —
the new object receives the next sequential id and every parallel array
is extended consistently (fresh entries at rest). -/
def add_object (w : PWorld) : ℕ × PWorld :=
  (w.accels.length, ⟨w.accels ++ [⟨0, 0, 0⟩], w.vels ++ [⟨0, 0, 0⟩]⟩)

/-- Source `Admiral.add_flagship`: create the flagship and remember it as
`my_ship` — the roster `fleet`/`fleet_oids` is NOT touched. -/
def add_flagship (p : Player) (w : PWorld) : Player × PWorld :=
  let r := add_object w
  ({ p with myShipOid := r.1 }, r.2)

/-- Source `Admiral.add_ship`: create a member ship and append its id to the
roster (the ship class and name do not affect ids). -/
def add_ship (p : Player) (w : PWorld) : Player × PWorld :=
  let r := add_object w
  ({ p with fleetOids := p.fleetOids ++ [r.1] }, r.2)

/-- Source `Player.make_fleet(count)`: `count` successive `add_ship` calls (the
per-index class choice affects no object id). -/
def make_fleet : ℕ → Player × PWorld → Player × PWorld
  | 0, pw => pw
  | n + 1, pw => make_fleet n (add_ship pw.1 pw.2)

/-- Source `Player.setup`: `add_flagship` via `Admiral.setup`, then
`make_fleet(20)` (command registration touches no modelled state). -/
def player_setup (w : PWorld) : Player × PWorld :=
  make_fleet 20 (add_flagship ⟨0, 0, []⟩ w)

/-- C9: ordering any existing object that is not in the fleet roster
reports feedback, invokes no command, and leaves the whole world — in
particular the target's acceleration and velocity entries — unchanged,
whatever the command would have done. -/
theorem order_ship_outside_fleet_no_mutation (eff : PWorld → PWorld)
    (p : Player) (oid : ℕ) (w : PWorld)
    (hvalid : oid < w.accels.length) (hmem : oid ∉ p.fleetOids) :
    order_ship eff p oid w = some (w, .feedback) := by
  simp [order_ship, hvalid, hmem]

/-- C9 witness: a concrete world of four objects, a fleet owning ids 1
and 2, an order for id 3 with a command that would wipe the world. -/
theorem order_ship_outside_fleet_no_mutation_witness :
    (3 < (⟨[⟨1, 1, 1⟩, ⟨2, 2, 2⟩, ⟨0, 0, 0⟩, ⟨5, 5, 5⟩], [⟨0, 0, 0⟩, ⟨0, 0, 0⟩, ⟨0, 0, 0⟩, ⟨0, 0, 0⟩]⟩ : PWorld).accels.length) ∧
      3 ∉ [1, 2] ∧
      order_ship (fun _ => ⟨[], []⟩) ⟨0, 0, [1, 2]⟩ 3
          ⟨[⟨1, 1, 1⟩, ⟨2, 2, 2⟩, ⟨0, 0, 0⟩, ⟨5, 5, 5⟩], [⟨0, 0, 0⟩, ⟨0, 0, 0⟩, ⟨0, 0, 0⟩, ⟨0, 0, 0⟩]⟩ =
        some (⟨[⟨1, 1, 1⟩, ⟨2, 2, 2⟩, ⟨0, 0, 0⟩, ⟨5, 5, 5⟩], [⟨0, 0, 0⟩, ⟨0, 0, 0⟩, ⟨0, 0, 0⟩, ⟨0, 0, 0⟩]⟩, .feedback) :=
  ⟨by simp, by simp,
   order_ship_outside_fleet_no_mutation (fun _ => ⟨[], []⟩) ⟨0, 0, [1, 2]⟩ 3 _
     (by simp) (by simp)⟩

lemma make_fleet_myShip (n : ℕ) : ∀ (p : Player) (w : PWorld),
    ((make_fleet n (p, w)).1).myShipOid = p.myShipOid := by
  induction n with
  | zero => intro p w; rfl
  | succ m ih =>
    intro p w
    simp only [make_fleet]
    rw [ih]
    rfl

lemma make_fleet_len (n : ℕ) : ∀ (p : Player) (w : PWorld),
    ((make_fleet n (p, w)).2).accels.length = w.accels.length + n := by
  induction n with
  | zero => intro p w; rfl
  | succ m ih =>
    intro p w
    simp only [make_fleet]
    rw [ih]
    simp [add_ship, add_object]
    omega

lemma make_fleet_oids_lb (n : ℕ) (c : ℕ) : ∀ (p : Player) (w : PWorld),
    (∀ m ∈ p.fleetOids, c ≤ m) → c ≤ w.accels.length →
      ∀ m ∈ (make_fleet n (p, w)).1.fleetOids, c ≤ m := by
  induction n with
  | zero => intro p w hp _ m hm; exact hp m hm
  | succ k ih =>
    intro p w hp hw m hm
    simp only [make_fleet] at hm
    refine ih (add_ship p w).1 (add_ship p w).2 ?_ ?_ m hm
    · intro j hj
      simp only [add_ship, add_object, List.mem_append, List.mem_singleton] at hj
      rcases hj with hj | rfl
      · exact hp j hj
      · exact hw
    · simp only [add_ship, add_object, List.length_append, List.length_singleton]
      omega

/-- C10: after `Player.setup` the flagship's id — which `add_flagship`
never adds to the roster, only `add_ship` adds ids — is not in
`fleet_oids`, so `order_ship` aimed at the player's own flagship reports
the `not in my fleet` feedback and invokes no command on it, whatever the
command was. -/
theorem flagship_not_in_fleet_feedback (w : PWorld) (eff : PWorld → PWorld) :
    (player_setup w).1.myShipOid ∉ (player_setup w).1.fleetOids ∧
      order_ship eff (player_setup w).1 (player_setup w).1.myShipOid (player_setup w).2 =
        some ((player_setup w).2, .feedback) := by
  have h1 : (add_flagship ⟨0, 0, []⟩ w).1 = ⟨0, w.accels.length, []⟩ := rfl
  have h2 : (add_flagship ⟨0, 0, []⟩ w).2.accels.length = w.accels.length + 1 := by
    simp [add_flagship, add_object]
  have hmy : (player_setup w).1.myShipOid = w.accels.length := by
    rw [player_setup, show (add_flagship ⟨0, 0, []⟩ w) =
      ((add_flagship ⟨0, 0, []⟩ w).1, (add_flagship ⟨0, 0, []⟩ w).2) from rfl, h1,
      make_fleet_myShip]
  have hlb : ∀ m ∈ (player_setup w).1.fleetOids, w.accels.length + 1 ≤ m := by
    rw [player_setup, show (add_flagship ⟨0, 0, []⟩ w) =
      ((add_flagship ⟨0, 0, []⟩ w).1, (add_flagship ⟨0, 0, []⟩ w).2) from rfl, h1]
    exact make_fleet_oids_lb 20 (w.accels.length + 1) _ _ (by simp) (by rw [h2])
  have hnotmem : (player_setup w).1.myShipOid ∉ (player_setup w).1.fleetOids := by
    rw [hmy]
    intro hmem
    have := hlb _ hmem
    omega
  have hlen : (player_setup w).2.accels.length = w.accels.length + 21 := by
    rw [player_setup, show (add_flagship ⟨0, 0, []⟩ w) =
      ((add_flagship ⟨0, 0, []⟩ w).1, (add_flagship ⟨0, 0, []⟩ w).2) from rfl,
      make_fleet_len, h2]
  have hvalid : (player_setup w).1.myShipOid < (player_setup w).2.accels.length := by
    rw [hmy, hlen]
    omega
  exact ⟨hnotmem, by simp [order_ship, hvalid, hnotmem]⟩

end Admiral

end SpaceSim
